import Mathlib

/-!
Shallow embedding of the music-API repository (songs router, users router,
document-store user operations) together with proofs of the specification's
claims about pagination, navigation links, the create-owned-record protocol,
access control, token verification, update/delete row-count semantics and the
userID uniqueness question.

Sources embedded:
* the songs router (schema, `getSongsPage`, the list route's link generation,
  `insertNewSong`, the POST route, `replaceBusinessByID`, `deleteBusinessByID`);
* `api/users.js` (`insertNewUser`, `getUserByID`, the per-user routes,
  `addSongToUser`).

`lib/validation.js` and `lib/auth.js` are not part of the provided sources;
the definitions that stand in for them are modelled from the spec and are
marked as such in their doc comments.
-/

namespace MusicApi

/-- A row of the relational `songs` table. Column values are kept as strings
(the schema's domain fields); `genre` is the one optional column. -/
structure Song where
  id : Nat
  ownerID : String
  name : String
  length : String
  artist : String
  album : String
  genre : Option String
deriving DecidableEq, Repr

/-- The relational store for songs: the rows plus the auto-increment counter
that MySQL uses to produce `result.insertId`. -/
structure RelStore where
  rows : List Song
  nextId : Nat
deriving DecidableEq, Repr

/-- A user document as stored in the mongo `users` collection by
`insertNewUser`: `userID`, `name`, `email`, `password` (the bcrypt hash) and
the `songs` array of owned song ids. -/
structure UserDoc where
  userID : String
  name : String
  email : String
  password : String
  songs : List Nat
deriving DecidableEq, Repr

/-- The document store: the `users` collection, in insertion order. -/
abbrev UserStore := List UserDoc

/-- A user document as fetched by `getUserByID`: the projection
`\x7b password: 0 \x7d` may have removed the password field, so it is optional
here. -/
structure UserView where
  userID : String
  name : String
  email : String
  password : Option String
  songs : List Nat
deriving DecidableEq, Repr

/-! ## Pagination (songs router, `getSongsPage`) -/

/-- Source: `const numPerPage = 10;` -/
def numPerPage : Nat := 10

/-- Source: `const lastPage = Math.max(Math.ceil(totalCount / numPerPage), 1);`
(ceiling division written out for natural numbers). -/
def lastPageOf (totalCount : Nat) : Nat :=
  max ((totalCount + numPerPage - 1) / numPerPage) 1

/-- Source: `page = page < 1 ? 1 : page; page = page > lastPage ? lastPage : page;`
The requested page arrives as `parseInt(req.query.page) || 1` and may be any
integer. -/
def clampPage (page : Int) (totalCount : Nat) : Nat :=
  let lastPage := lastPageOf totalCount
  let p1 : Int := if page < 1 then 1 else page
  let p2 : Int := if p1 > (lastPage : Int) then (lastPage : Int) else p1
  p2.toNat

/-- Source: `const offset = (page - 1) * numPerPage;` (computed from the clamped page). -/
def pageOffset (page : Int) (totalCount : Nat) : Nat :=
  (clampPage page totalCount - 1) * numPerPage

/-- The object `getSongsPage` resolves with. -/
structure SongsPageInfo where
  songs : List Song
  pageNumber : Nat
  totalPages : Nat
  pageSize : Nat
  totalCount : Nat
deriving DecidableEq, Repr

/-- Source: `getSongsPage(page, totalCount, mysqlPool)`: clamp the page, compute the
offset, fetch `LIMIT offset,numPerPage` of the id-ordered rows, and resolve
the page object. -/
def getSongsPage (page : Int) (totalCount : Nat) (rows : List Song) :
    SongsPageInfo :=
  { songs := (rows.drop (pageOffset page totalCount)).take numPerPage
    pageNumber := clampPage page totalCount
    totalPages := lastPageOf totalCount
    pageSize := numPerPage
    totalCount := totalCount }

/-- The HATEOAS links object built by the songs list route. -/
structure SongsListLinks where
  nextPage : Option String
  lastPage : Option String
  prevPage : Option String
  firstPage : Option String
deriving DecidableEq, Repr

/-- Link generation in `router.get('/')`: `nextPage`/`lastPage` when
`pageNumber < totalPages`, `prevPage`/`firstPage` when `pageNumber > 1`. -/
def songsListLinks (pageNumber totalPages : Nat) : SongsListLinks :=
  let l0 : SongsListLinks := ⟨none, none, none, none⟩
  let l1 :=
    if pageNumber < totalPages then
      { l0 with
        nextPage := some ("/songs?page=" ++ toString (pageNumber + 1))
        lastPage := some ("/songs?page=" ++ toString totalPages) }
    else l0
  if pageNumber > 1 then
    { l1 with
      prevPage := some ("/songs?page=" ++ toString (pageNumber - 1))
      firstPage := some "/songs?page=1" }
  else l1

/-! ## Users (`api/users.js`) -/

/-- The body of `POST /users` after `validateUserObject` has accepted it:
`userID`, `name`, `email` and the plaintext `password` are all present. -/
structure NewUserRequest where
  userID : String
  name : String
  email : String
  password : String
deriving DecidableEq, Repr

/-- Source: `insertNewUser(user, mongoDB)`: hash the password (bcrypt is an external
collaborator, passed in as `hash`), build the user document with an empty
`songs` array, and `insertOne` it — an unconditional append, with no lookup of
any existing document. Returns the new store. -/
def insertNewUser (hash : String → String) (user : NewUserRequest)
    (db : UserStore) : UserStore :=
  db ++ [{ userID := user.userID, name := user.name, email := user.email
           password := hash user.password, songs := ([] : List Nat) }]

/-- The projection applied by `getUserByID`: `includePassword ? \x7b\x7d :
\x7b password: 0 \x7d`. -/
def projectUser (includePassword : Bool) (u : UserDoc) : UserView :=
  { userID := u.userID, name := u.name, email := u.email
    password := if includePassword then some u.password else none
    songs := u.songs }

/-- Source: `getUserByID(userID, mongoDB, includePassword)`:
`find(\x7b userID \x7d).project(projection).toArray()` then resolve
`results[0]` (`undefined`, i.e. `none`, when nothing matched). Callers that
omit the third argument pass `false` here. -/
def getUserByID (userID : String) (db : UserStore) (includePassword : Bool) :
    Option UserView :=
  ((db.filter (fun u => u.userID = userID)).map
    (projectUser includePassword)).head?

/-- Source: `updateOne(\x7b userID \x7d, \x7b push: \x7b songs: songID \x7d \x7d)`:
mongo's `updateOne` modifies at most the first matching document. -/
def pushSongFirstMatch (songID : Nat) (userID : String) :
    UserStore → UserStore
  | [] => []
  | u :: rest =>
    if u.userID = userID then
      { u with songs := u.songs ++ [songID] } :: rest
    else
      u :: pushSongFirstMatch songID userID rest

/-- Source: `addSongToUser(songID, userID, mongoDB)`: run the `updateOne` and then
resolve `songID` — the update's matched/modified counts are never inspected. -/
def addSongToUser (songID : Nat) (userID : String) (db : UserStore) :
    Nat × UserStore :=
  (songID, pushSongFirstMatch songID userID db)

/-! ## Validation (modelled from the spec) and song creation -/

/-- The `POST /songs` request body, restricted to the fields of `songSchema`
(`ownerID`, `name`, `length`, `artist`, `album` required; `genre` optional);
a missing field is `none`. -/
structure SongPayload where
  ownerID : Option String
  name : Option String
  length : Option String
  artist : Option String
  album : Option String
  genre : Option String
deriving DecidableEq, Repr

/-- Modelled from the spec: `lib/validation.js` (`validateAgainstSchema`) is
not among the provided sources. Spec §4.4 step 1: validation fails exactly
when a required field of the allowlist is missing. Specialized to
`songSchema`, whose required fields are `ownerID`, `name`, `length`,
`artist`, `album`. -/
def validateSongPayload (p : SongPayload) : Bool :=
  p.ownerID.isSome && p.name.isSome && p.length.isSome &&
    p.artist.isSome && p.album.isSome

/-- The relational `INSERT INTO songs SET ?` inside `insertNewSong`
(`extractValidFields` keeps only schema fields, which `SongPayload` already
enforces; `song.id = null` lets MySQL assign the auto-increment id). Returns
`result.insertId` and the new store. -/
def insertSongRow (p : SongPayload) (store : RelStore) : Nat × RelStore :=
  let row : Song :=
    { id := store.nextId
      ownerID := p.ownerID.getD ""
      name := p.name.getD ""
      length := p.length.getD ""
      artist := p.artist.getD ""
      album := p.album.getD ""
      genre := p.genre }
  (store.nextId, { rows := store.rows ++ [row], nextId := store.nextId + 1 })

/-- Source: `insertNewSong(song, mysqlPool, mongoDB)`: the relational insert, then
`addSongToUser(id, song.ownerID, mongoDB)`; resolves to what `addSongToUser`
resolves to. -/
def insertNewSong (song : SongPayload) (rel : RelStore) (mongo : UserStore) :
    Nat × RelStore × UserStore :=
  let (id, rel') := insertSongRow song rel
  let (rid, mongo') := addSongToUser id (song.ownerID.getD "") mongo
  (rid, rel', mongo')

/-- Outcome of `POST /songs` as sent by the route. -/
inductive CreateSongResult where
  /-- Source: `201` with the new id and `links.song`. -/
  | created (id : Nat)
  /-- Source: `400` "Invalid owner ID" (the owner lookup found no user). -/
  | invalidOwner
  /-- Source: `400` "Request needs a valid JSON body" (schema validation failed). -/
  | invalidBody
deriving DecidableEq, Repr

/-- HTTP status the route pairs with each `CreateSongResult`. -/
def CreateSongResult.status : CreateSongResult → Nat
  | .created _ => 201
  | .invalidOwner => 400
  | .invalidBody => 400

/-- Source: `router.post('/')` of the songs router: validate against `songSchema`,
look the owner up with `getUserByID` (password projected out), and only then
`insertNewSong`; a missing owner becomes `Promise.reject(400)`, answered as
the 400 "Invalid owner ID" response with no store touched. -/
def postSong (body : SongPayload) (rel : RelStore) (mongo : UserStore) :
    CreateSongResult × RelStore × UserStore :=
  if validateSongPayload body then
    match getUserByID (body.ownerID.getD "") mongo false with
    | some _ =>
      let (id, rel', mongo') := insertNewSong body rel mongo
      (.created id, rel', mongo')
    | none => (.invalidOwner, rel, mongo)
  else
    (.invalidBody, rel, mongo)

/-- The same route, but with the document store read at the owner-existence
check (step 2) and the document store written by `addSongToUser` (step 4)
taken as two separate snapshots: this expresses a concurrent deletion of the
owner between the two steps, which the sequential code does nothing to
exclude. `postSong` is the special case `mongoAtAppend = mongoAtCheck`. -/
def postSongInterleaved (body : SongPayload) (rel : RelStore)
    (mongoAtCheck mongoAtAppend : UserStore) :
    CreateSongResult × RelStore × UserStore :=
  if validateSongPayload body then
    match getUserByID (body.ownerID.getD "") mongoAtCheck false with
    | some _ =>
      let (id, rel') := insertSongRow body rel
      let (rid, mongo') := addSongToUser id (body.ownerID.getD "") mongoAtAppend
      (.created rid, rel', mongo')
    | none => (.invalidOwner, rel, mongoAtAppend)
  else
    (.invalidBody, rel, mongoAtAppend)

/-! ## Auth token service (modelled from the spec) -/

/-- Modelled from the spec: `lib/auth.js` is not among the provided sources.
Spec §4.2: tokens are produced by signing a structure containing the
`userID` with a process-wide secret. The signing primitive is abstracted as a
keyed MAC over the claims string. -/
def signClaims (secret claims : String) : String :=
  secret ++ "." ++ claims

/-- A signed bearer token: the subject claim and its signature. -/
structure AuthToken where
  sub : String
  sig : String
deriving DecidableEq, Repr

/-- Modelled from the spec: `generateAuthToken(userID)` from `lib/auth.js`
(used by `POST /users/login`) issues a token binding the `userID`, signed
with the process secret. -/
def generateAuthToken (secret userID : String) : AuthToken :=
  { sub := userID, sig := signClaims secret userID }

/-- The tri-state result of token verification (spec §4.2): valid with an
identity, invalid, or no token presented at all. -/
inductive VerifyResult where
  | valid (userID : String)
  | invalid
  | absent
deriving DecidableEq, Repr

/-- Modelled from the spec: `verify` fails closed — an absent token yields
`absent`, a token whose signature does not match the secret-signed subject
yields `invalid`, and only a correctly signed token yields the bound
identity. It returns, never throws. -/
def verifyAuthToken (secret : String) : Option AuthToken → VerifyResult
  | none => .absent
  | some t => if t.sig = signClaims secret t.sub then .valid t.sub else .invalid

/-! ## Per-user routes (`api/users.js`) -/

/-- Outcome of a per-user GET route, with the response body on success. -/
inductive RouteOutcome (α : Type) where
  /-- Source: `200` with the JSON body. -/
  | ok (body : α)
  /-- Source: `401` from `requireAuthentication` (missing/invalid token). -/
  | unauthenticated
  /-- Source: `403` "Unauthorized to access that resource". -/
  | forbidden
  /-- Source: `next()` fell through to the 404 handler. -/
  | notFound
deriving DecidableEq, Repr

/-- Modelled from the spec: `requireAuthentication` from `lib/auth.js`
extracts the bearer token, verifies it, and either rejects with 401 or passes
control on with `req.user` set to the verified identity. -/
def requireAuthentication (secret : String) (token : Option AuthToken) :
    Option String :=
  match verifyAuthToken secret token with
  | .valid userID => some userID
  | _ => none

/-- Source: `router.get('/:userID')`: after `requireAuthentication`, reject with 403
whenever `req.user !== req.params.userID`; otherwise fetch the user (password
projected out) and 200 it, or fall through to 404. -/
def getUserRoute (secret : String) (token : Option AuthToken)
    (targetUserID : String) (mongo : UserStore) : RouteOutcome UserView :=
  match requireAuthentication secret token with
  | none => .unauthenticated
  | some actingUser =>
    if actingUser ≠ targetUserID then .forbidden
    else
      match getUserByID targetUserID mongo false with
      | some u => .ok u
      | none => .notFound

/-- Source: `getSongByOwnerID(ownerID, mysqlPool)`:
`SELECT * FROM songs WHERE ownerID = ?`. -/
def getSongByOwnerID (ownerID : String) (rel : RelStore) : List Song :=
  rel.rows.filter (fun s => s.ownerID = ownerID)

/-- Source: `router.get('/:userID/songs')`: after `requireAuthentication` the handler
immediately fetches and returns the target user's songs — no comparison of
`req.user` with `req.params.userID` appears in its body. -/
def getUserSongsRoute (secret : String) (token : Option AuthToken)
    (targetUserID : String) (rel : RelStore) : RouteOutcome (List Song) :=
  match requireAuthentication secret token with
  | none => .unauthenticated
  | some _ => .ok (getSongByOwnerID targetUserID rel)

/-- A row of the relational `reviews` table; the routes embedded here only
touch its `userid` column, the rest is held abstract. -/
structure ReviewRow where
  userid : String
  payload : String
deriving DecidableEq, Repr

/-- A row of the relational `playlist` table; only `userid` is consulted. -/
structure PlaylistRow where
  userid : String
  payload : String
deriving DecidableEq, Repr

/-- Source: `getReviewsByUserID`: `SELECT * FROM reviews WHERE userid = ?`. -/
def getReviewsByUserID (userID : String) (reviews : List ReviewRow) :
    List ReviewRow :=
  reviews.filter (fun r => r.userid = userID)

/-- Source: `getPlaylistsByUserID`: `SELECT * FROM playlist WHERE userid = ?`. -/
def getPlaylistsByUserID (userID : String) (playlists : List PlaylistRow) :
    List PlaylistRow :=
  playlists.filter (fun r => r.userid = userID)

/-- Source: `router.get('/:userID/reviews')`: authentication, then an unconditional
fetch-and-200 of the target user's reviews — no self-access check. -/
def getUserReviewsRoute (secret : String) (token : Option AuthToken)
    (targetUserID : String) (reviews : List ReviewRow) :
    RouteOutcome (List ReviewRow) :=
  match requireAuthentication secret token with
  | none => .unauthenticated
  | some _ => .ok (getReviewsByUserID targetUserID reviews)

/-- Source: `router.get('/:userID/playlists')`: authentication, then an unconditional
fetch-and-200 of the target user's playlists — no self-access check. -/
def getUserPlaylistsRoute (secret : String) (token : Option AuthToken)
    (targetUserID : String) (playlists : List PlaylistRow) :
    RouteOutcome (List PlaylistRow) :=
  match requireAuthentication secret token with
  | none => .unauthenticated
  | some _ => .ok (getPlaylistsByUserID targetUserID playlists)

/-! ## Business update and delete (songs router) -/

/-- A row of the relational `businesses` table that the update/delete routes
of the songs router operate on; only the primary key matters to them, the
remaining columns are held abstract. -/
structure BizRow where
  id : Nat
  payload : String
deriving DecidableEq, Repr

/-- A thrown JavaScript error, as far as the embedded code can produce one. -/
inductive JsError where
  /-- Evaluation of an identifier that is not bound in any enclosing scope. -/
  | referenceError (ident : String)
deriving DecidableEq, Repr

/-- Source: `deleteBusinessByID(businessID, mysqlPool)`:
`DELETE FROM businesses WHERE id = ?`, resolving `result.affectedRows > 0`. -/
def deleteBusinessByID (businessID : Nat) (rows : List BizRow) :
    Bool × List BizRow :=
  let remaining := rows.filter (fun r => r.id ≠ businessID)
  (decide (remaining.length < rows.length), remaining)

/-- Source: `replaceBusinessByID(businessID, business, mysqlPool)`: its first
statement is `business = validation.extractValidFields(business,
businessSchema)`, but no `businessSchema` is bound anywhere in the module
(the file's schema constant is named `songSchema`), so evaluating the
identifier throws a `ReferenceError` before the `UPDATE` query can run. The
documented behaviour — resolve `result.affectedRows > 0` — is unreachable. -/
def replaceBusinessByID (businessID : Nat) (body : SongPayload)
    (rows : List BizRow) : Except JsError (Bool × List BizRow) :=
  Except.error (.referenceError "businessSchema")

/-! ## Theorems -/

/-- The clamped page is always between 1 and the last page. -/
theorem clampPage_bounds (page : Int) (totalCount : Nat) :
    1 ≤ clampPage page totalCount ∧
      clampPage page totalCount ≤ lastPageOf totalCount := by
  have h1 : 1 ≤ lastPageOf totalCount := le_max_right _ _
  unfold clampPage
  dsimp only
  split_ifs <;> omega

/-- C4: for every totalCount and every requested page (arbitrarily far out of
range, negative included), the computed window has
`totalPages = max(ceil(totalCount/10), 1)`, a page number clamped to
`1 ≤ pageNumber ≤ totalPages`, and `offset = (pageNumber - 1) * pageSize`;
the computation is total, so no input produces an error. -/
theorem getSongsPage_window_clamped (page : Int) (totalCount : Nat)
    (rows : List Song) :
    (getSongsPage page totalCount rows).totalPages
        = max (totalCount ⌈/⌉ numPerPage) 1 ∧
    1 ≤ (getSongsPage page totalCount rows).pageNumber ∧
    (getSongsPage page totalCount rows).pageNumber
        ≤ (getSongsPage page totalCount rows).totalPages ∧
    pageOffset page totalCount
        = ((getSongsPage page totalCount rows).pageNumber - 1)
            * (getSongsPage page totalCount rows).pageSize :=
  ⟨rfl, (clampPage_bounds page totalCount).1,
    (clampPage_bounds page totalCount).2, rfl⟩

/-- C5: the navigation-link set contains `nextPage` and `lastPage` exactly
when `pageNumber < totalPages`, and `prevPage` and `firstPage` exactly when
`pageNumber > 1`; at the single-page boundary (`pageNumber = totalPages = 1`)
no navigation link is produced. -/
theorem songsListLinks_present_iff (pageNumber totalPages : Nat) :
    ((songsListLinks pageNumber totalPages).nextPage.isSome
        ↔ pageNumber < totalPages) ∧
    ((songsListLinks pageNumber totalPages).lastPage.isSome
        ↔ pageNumber < totalPages) ∧
    ((songsListLinks pageNumber totalPages).prevPage.isSome
        ↔ 1 < pageNumber) ∧
    ((songsListLinks pageNumber totalPages).firstPage.isSome
        ↔ 1 < pageNumber) ∧
    songsListLinks 1 1 = ⟨none, none, none, none⟩ := by
  unfold songsListLinks
  dsimp only
  split_ifs <;> simp_all

/-- A successful `getUserByID` lookup means some stored document carries the
requested key. -/
theorem exists_of_getUserByID_some {userID : String} {db : UserStore}
    {b : Bool} {u : UserView} (h : getUserByID userID db b = some u) :
    ∃ d ∈ db, d.userID = userID := by
  unfold getUserByID at h
  rcases hf : db.filter (fun d => d.userID = userID) with _ | ⟨d, rest⟩
  · rw [hf] at h
    simp at h
  · have hd : d ∈ db.filter (fun d => d.userID = userID) := by
      rw [hf]
      exact List.mem_cons_self _ _
    have hd' := List.mem_filter.mp hd
    exact ⟨d, hd'.1, by simpa using hd'.2⟩

/-- When no stored document carries the key, `updateOne`'s push finds no
match and the collection is left untouched. -/
theorem pushSongFirstMatch_of_no_match (songID : Nat) (userID : String)
    (db : UserStore) (h : ∀ d ∈ db, d.userID ≠ userID) :
    pushSongFirstMatch songID userID db = db := by
  induction db with
  | nil => rfl
  | cons u rest ih =>
    unfold pushSongFirstMatch
    rw [if_neg (h u (List.mem_cons_self _ _)),
      ih (fun d hd => h d (List.mem_cons_of_mem _ hd))]

/-- When some stored document carries the key, after the push some document
with that key holds the pushed song id. -/
theorem pushSongFirstMatch_appends (songID : Nat) (userID : String)
    (db : UserStore) (h : ∃ d ∈ db, d.userID = userID) :
    ∃ d ∈ pushSongFirstMatch songID userID db,
      d.userID = userID ∧ songID ∈ d.songs := by
  induction db with
  | nil =>
    rcases h with ⟨d, hd, -⟩
    cases hd
  | cons u rest ih =>
    unfold pushSongFirstMatch
    by_cases hu : u.userID = userID
    · refine ⟨{ u with songs := u.songs ++ [songID] }, ?_, hu, by simp⟩
      rw [if_pos hu]
      exact List.mem_cons_self _ _
    · rw [if_neg hu]
      have h' : ∃ d ∈ rest, d.userID = userID := by
        rcases h with ⟨d, hd, hdid⟩
        rcases List.mem_cons.mp hd with rfl | hmem
        · exact absurd hdid hu
        · exact ⟨d, hmem, hdid⟩
      rcases ih h' with ⟨d, hd, hdid, hs⟩
      exact ⟨d, List.mem_cons_of_mem _ hd, hdid, hs⟩

/-- Reduction of the interleaved creation flow once validation has passed and
the owner lookup has matched: the relational row is inserted and the push runs
against the append-time snapshot. -/
theorem postSongInterleaved_eq_of_valid (body : SongPayload) (rel : RelStore)
    (mongoAtCheck mongoAtAppend : UserStore) (u : UserView)
    (hv : validateSongPayload body = true)
    (hu : getUserByID (body.ownerID.getD "") mongoAtCheck false = some u) :
    postSongInterleaved body rel mongoAtCheck mongoAtAppend
      = (.created rel.nextId,
         { rows := rel.rows ++ [⟨rel.nextId, body.ownerID.getD "",
             body.name.getD "", body.length.getD "", body.artist.getD "",
             body.album.getD "", body.genre⟩],
           nextId := rel.nextId + 1 },
         pushSongFirstMatch rel.nextId (body.ownerID.getD "") mongoAtAppend) := by
  unfold postSongInterleaved insertSongRow addSongToUser
  rw [hv, hu]
  rfl

/-- C1: a creation payload that passes schema validation but whose `ownerID`
matches no user makes `POST /songs` answer with the 400 "Invalid owner ID"
outcome, and both the relational store and the user collection are returned
exactly as they were — no row inserted, no document modified. -/
theorem postSong_ownerNotFound_no_write (body : SongPayload) (rel : RelStore)
    (mongo : UserStore)
    (hv : validateSongPayload body = true)
    (ho : getUserByID (body.ownerID.getD "") mongo false = none) :
    postSong body rel mongo = (.invalidOwner, rel, mongo) ∧
      CreateSongResult.invalidOwner.status = 400 := by
  unfold postSong
  rw [hv, ho]
  exact ⟨rfl, rfl⟩

/-- Witness for C1 at a concrete payload against an empty user collection. -/
theorem postSong_ownerNotFound_no_write_witness :
    postSong ⟨some "bob", some "song", some "3:00", some "art", some "alb", none⟩
        ⟨[], 1⟩ []
      = (.invalidOwner, ⟨[], 1⟩, []) ∧
      CreateSongResult.invalidOwner.status = 400 :=
  postSong_ownerNotFound_no_write _ _ _ rfl rfl

/-- C2: a valid payload whose owner exists makes `POST /songs` run validate,
owner lookup, relational insert and ownership append in that order and answer
`created` with the relational insert id (`nextId` of the store at insert
time); afterwards a row with that id and the payload's `ownerID` is in the
relational store and the id appears in the `songs` array of a user document
carrying that `ownerID`. -/
theorem postSong_success (body : SongPayload) (rel : RelStore)
    (mongo : UserStore) (u : UserView)
    (hv : validateSongPayload body = true)
    (ho : getUserByID (body.ownerID.getD "") mongo false = some u) :
    ∃ rel' mongo',
      postSong body rel mongo = (.created rel.nextId, rel', mongo') ∧
      (∃ row ∈ rel'.rows,
        row.id = rel.nextId ∧ row.ownerID = body.ownerID.getD "") ∧
      (∃ d ∈ mongo',
        d.userID = body.ownerID.getD "" ∧ rel.nextId ∈ d.songs) := by
  have hmem : ∃ d ∈ mongo, d.userID = body.ownerID.getD "" :=
    exists_of_getUserByID_some ho
  refine ⟨{ rows := rel.rows ++ [⟨rel.nextId, body.ownerID.getD "",
      body.name.getD "", body.length.getD "", body.artist.getD "",
      body.album.getD "", body.genre⟩], nextId := rel.nextId + 1 },
    pushSongFirstMatch rel.nextId (body.ownerID.getD "") mongo, ?_, ?_, ?_⟩
  · rw [show postSong body rel mongo
        = postSongInterleaved body rel mongo mongo from rfl,
      postSongInterleaved_eq_of_valid body rel mongo mongo u hv ho]
  · exact ⟨⟨rel.nextId, body.ownerID.getD "", body.name.getD "",
      body.length.getD "", body.artist.getD "", body.album.getD "",
      body.genre⟩, by simp, rfl, rfl⟩
  · exact pushSongFirstMatch_appends _ _ _ hmem

/-- Witness for C2: creating a song for the seeded user "tom". -/
theorem postSong_success_witness :
    ∃ rel' mongo',
      postSong ⟨some "tom", some "song", some "3:00", some "art", some "alb", none⟩
          ⟨[], 5⟩ [⟨"tom", "tom jerry", "tomjerry@gmail.com", "h", []⟩]
        = (.created 5, rel', mongo') ∧
      (∃ row ∈ rel'.rows, row.id = 5 ∧ row.ownerID = "tom") ∧
      (∃ d ∈ mongo', d.userID = "tom" ∧ 5 ∈ d.songs) :=
  postSong_success _ _ _ ⟨"tom", "tom jerry", "tomjerry@gmail.com", none, []⟩
    rfl rfl

/-- C10: `addSongToUser` resolves to the given song id whatever the store
holds, and the creation flow whose owner check and ownership append see
different document-store snapshots (the owner was deleted in between) still
answers `created` (HTTP 201) while the append leaves the user collection
exactly as it found it — no ownership reference is recorded anywhere. -/
theorem addSongToUser_ignores_match (body : SongPayload) (rel : RelStore)
    (mongoAtCheck mongoAtAppend : UserStore)
    (hv : validateSongPayload body = true)
    (hc : ∃ u, getUserByID (body.ownerID.getD "") mongoAtCheck false = some u)
    (ha : ∀ d ∈ mongoAtAppend, d.userID ≠ body.ownerID.getD "") :
    (∀ (songID : Nat) (userID : String) (db : UserStore),
        (addSongToUser songID userID db).1 = songID) ∧
    ∃ rel',
      postSongInterleaved body rel mongoAtCheck mongoAtAppend
        = (.created rel.nextId, rel', mongoAtAppend) ∧
      (CreateSongResult.created rel.nextId).status = 201 := by
  refine ⟨fun _ _ _ => rfl, ?_⟩
  rcases hc with ⟨u, hu⟩
  have hp := pushSongFirstMatch_of_no_match rel.nextId
    (body.ownerID.getD "") mongoAtAppend ha
  refine ⟨{ rows := rel.rows ++ [⟨rel.nextId, body.ownerID.getD "",
      body.name.getD "", body.length.getD "", body.artist.getD "",
      body.album.getD "", body.genre⟩], nextId := rel.nextId + 1 }, ?_, rfl⟩
  rw [postSongInterleaved_eq_of_valid body rel mongoAtCheck mongoAtAppend
    u hv hu, hp]

/-- Witness for C10: the owner "tom" exists at the check but the collection
is empty by the time of the append. -/
theorem addSongToUser_ignores_match_witness :
    (∀ (songID : Nat) (userID : String) (db : UserStore),
        (addSongToUser songID userID db).1 = songID) ∧
    ∃ rel',
      postSongInterleaved
          ⟨some "tom", some "song", some "3:00", some "art", some "alb", none⟩
          ⟨[], 5⟩ [⟨"tom", "tom jerry", "tomjerry@gmail.com", "h", []⟩] []
        = (.created 5, rel', []) ∧
      (CreateSongResult.created 5).status = 201 :=
  addSongToUser_ignores_match _ _ _ _ rfl
    ⟨⟨"tom", "tom jerry", "tomjerry@gmail.com", none, []⟩, rfl⟩
    (by intro d hd; cases hd)

/-- C3 counterexample: the claim says every per-user sub-resource read
applies the self-access check, any acting user distinct from the target
getting 403. But an authenticated request by "alice" for "bob"'s songs is
answered 200 with the song list: `router.get('/:userID/songs')` never
compares `req.user` with `req.params.userID`. -/
theorem getUserSongsRoute_cross_user_allowed :
    getUserSongsRoute "secret" (some (generateAuthToken "secret" "alice"))
        "bob" ⟨[], 1⟩ = .ok [] ∧
      "alice" ≠ "bob" :=
  ⟨rfl, by decide⟩

/-- C3 amended: only `GET /users/:userID` applies the self-access check
(unauthenticated requests are rejected first, then any acting user other
than the target gets 403); the songs, reviews and playlists sub-resource
reads authenticate (401 without a valid token) but apply no self-access
check — any authenticated acting user is served the target user's data. -/
theorem perUserReads_selfCheck_only_profile (secret a b : String)
    (mongo : UserStore) (rel : RelStore) (reviews : List ReviewRow)
    (playlists : List PlaylistRow) (hab : a ≠ b) :
    getUserRoute secret none b mongo = .unauthenticated ∧
    getUserSongsRoute secret none b rel = .unauthenticated ∧
    getUserReviewsRoute secret none b reviews = .unauthenticated ∧
    getUserPlaylistsRoute secret none b playlists = .unauthenticated ∧
    getUserRoute secret (some (generateAuthToken secret a)) b mongo
      = .forbidden ∧
    getUserSongsRoute secret (some (generateAuthToken secret a)) b rel
      = .ok (getSongByOwnerID b rel) ∧
    getUserReviewsRoute secret (some (generateAuthToken secret a)) b reviews
      = .ok (getReviewsByUserID b reviews) ∧
    getUserPlaylistsRoute secret (some (generateAuthToken secret a)) b
        playlists
      = .ok (getPlaylistsByUserID b playlists) := by
  have hauth : requireAuthentication secret
      (some (generateAuthToken secret a)) = some a := by
    simp [requireAuthentication, verifyAuthToken, generateAuthToken]
  refine ⟨rfl, rfl, rfl, rfl, ?_, ?_, ?_, ?_⟩
  · simp only [getUserRoute, hauth]
    exact if_pos hab
  · simp only [getUserSongsRoute, hauth]
  · simp only [getUserReviewsRoute, hauth]
  · simp only [getUserPlaylistsRoute, hauth]

/-- Witness for the amended C3 at acting user "alice" and target "bob". -/
theorem perUserReads_selfCheck_only_profile_witness :
    getUserRoute "secret" (some (generateAuthToken "secret" "alice")) "bob" []
      = .forbidden ∧
    getUserSongsRoute "secret" (some (generateAuthToken "secret" "alice"))
        "bob" ⟨[], 1⟩ = .ok [] :=
  ⟨(perUserReads_selfCheck_only_profile "secret" "alice" "bob" [] ⟨[], 1⟩
      [] [] (by decide)).2.2.2.2.1,
   by
    have h := (perUserReads_selfCheck_only_profile "secret" "alice" "bob" []
      ⟨[], 1⟩ [] [] (by decide)).2.2.2.2.2.1
    simpa using h⟩

/-- A user fetched with the password-excluding projection carries no
password field. -/
theorem password_none_of_getUserByID {userID : String} {db : UserStore}
    {u : UserView} (h : getUserByID userID db false = some u) :
    u.password = none := by
  unfold getUserByID at h
  rcases hl : db.filter (fun d => d.userID = userID) with _ | ⟨d, rest⟩
  · rw [hl] at h
    simp at h
  · rw [hl] at h
    simp only [List.map_cons, List.head?_cons, Option.some.injEq] at h
    rw [← h]
    rfl

/-- C6: `getUserByID` called without the include-password option projects the
password hash out, and consequently a successful `GET /users/:userID`
response body carries no password field. -/
theorem getUser_reads_exclude_password (userID : String) (db : UserStore) :
    (∀ u, getUserByID userID db false = some u → u.password = none) ∧
    (∀ (secret : String) (token : Option AuthToken) (u : UserView),
        getUserRoute secret token userID db = .ok u → u.password = none) := by
  refine ⟨fun u h => password_none_of_getUserByID h, ?_⟩
  intro secret token u h
  rcases hra : requireAuthentication secret token with _ | acting
  · simp only [getUserRoute, hra] at h
    cases h
  · simp only [getUserRoute, hra] at h
    by_cases hne : acting ≠ userID
    · rw [if_pos hne] at h
      cases h
    · rw [if_neg hne] at h
      rcases hg : getUserByID userID db false with _ | w
      · simp only [hg] at h
        cases h
      · simp only [hg] at h
        cases h
        exact password_none_of_getUserByID hg

/-- Witness for C6 on the seeded user "tom", read directly and through the
authenticated route. -/
theorem getUser_reads_exclude_password_witness :
    getUserByID "tom" [⟨"tom", "tom jerry", "tomjerry@gmail.com", "h", []⟩]
        false
      = some ⟨"tom", "tom jerry", "tomjerry@gmail.com", none, []⟩ ∧
    (⟨"tom", "tom jerry", "tomjerry@gmail.com", none, []⟩ : UserView).password
      = none ∧
    getUserRoute "secret" (some (generateAuthToken "secret" "tom")) "tom"
        [⟨"tom", "tom jerry", "tomjerry@gmail.com", "h", []⟩]
      = .ok ⟨"tom", "tom jerry", "tomjerry@gmail.com", none, []⟩ :=
  ⟨rfl,
   (getUser_reads_exclude_password "tom"
      [⟨"tom", "tom jerry", "tomjerry@gmail.com", "h", []⟩]).1 _ rfl,
   rfl⟩

/-- The keyed signature determines its payload: equal signatures under the
same secret come from equal claims. -/
theorem signClaims_inj {secret u u' : String}
    (h : signClaims secret u = signClaims secret u') : u = u' := by
  unfold signClaims at h
  have hd := congrArg String.data h
  simp only [String.data_append] at hd
  exact String.ext (List.append_cancel_left hd)

/-- C7: verifying a token issued for `u` yields `u`; any token whose
signature is not the secret-signed subject — in particular one whose subject
was tampered with while its signature was kept — verifies to `invalid`; an
absent token verifies to `absent`; and verification always returns one of
the three states, never an exception. -/
theorem verifyAuthToken_roundtrip_failsClosed (secret : String) :
    (∀ u, verifyAuthToken secret (some (generateAuthToken secret u))
        = .valid u) ∧
    (∀ t : AuthToken, t.sig ≠ signClaims secret t.sub →
        verifyAuthToken secret (some t) = .invalid) ∧
    (∀ u u', u ≠ u' →
        verifyAuthToken secret (some ⟨u', signClaims secret u⟩) = .invalid) ∧
    verifyAuthToken secret none = .absent ∧
    (∀ t, (∃ w, verifyAuthToken secret t = .valid w) ∨
        verifyAuthToken secret t = .invalid ∨
        verifyAuthToken secret t = .absent) := by
  refine ⟨fun u => ?_, fun t ht => ?_, fun u u' hne => ?_, rfl, fun t => ?_⟩
  · simp [verifyAuthToken, generateAuthToken]
  · simp [verifyAuthToken, ht]
  · have hne' : ¬(signClaims secret u = signClaims secret u') :=
      fun hEq => hne (signClaims_inj hEq)
    simp [verifyAuthToken, hne']
  · rcases t with _ | tok
    · exact Or.inr (Or.inr rfl)
    · by_cases hs : tok.sig = signClaims secret tok.sub
      · exact Or.inl ⟨tok.sub, by simp [verifyAuthToken, hs]⟩
      · exact Or.inr (Or.inl (by simp [verifyAuthToken, hs]))

/-- Witness for C7: round trip for "tom", a forged signature, and a subject
swapped under a kept signature, all under the secret "secret". -/
theorem verifyAuthToken_roundtrip_failsClosed_witness :
    verifyAuthToken "secret" (some (generateAuthToken "secret" "tom"))
      = .valid "tom" ∧
    verifyAuthToken "secret" (some ⟨"tom", "forged"⟩) = .invalid ∧
    verifyAuthToken "secret" (some ⟨"jerry", signClaims "secret" "tom"⟩)
      = .invalid :=
  ⟨(verifyAuthToken_roundtrip_failsClosed "secret").1 "tom",
   (verifyAuthToken_roundtrip_failsClosed "secret").2.1 ⟨"tom", "forged"⟩
     (by decide),
   (verifyAuthToken_roundtrip_failsClosed "secret").2.2.1 "tom" "jerry"
     (by decide)⟩

/-- C8: deletion reports the affected-row count as a Boolean — `false`
leaving the store untouched when no row has the id, `true` when one does —
but the update operation can never report anything: its first statement
evaluates the unbound identifier `businessSchema` and throws a
`ReferenceError` for every input, present id or not. -/
theorem deleteReportsRowCount_updateThrows :
    (∀ (businessID : Nat) (rows : List BizRow),
        (∀ r ∈ rows, r.id ≠ businessID) →
          deleteBusinessByID businessID rows = (false, rows)) ∧
    (∀ (businessID : Nat) (rows : List BizRow),
        (∃ r ∈ rows, r.id = businessID) →
          (deleteBusinessByID businessID rows).1 = true) ∧
    (∀ (businessID : Nat) (body : SongPayload) (rows : List BizRow),
        replaceBusinessByID businessID body rows
          = .error (.referenceError "businessSchema")) := by
  refine ⟨fun businessID rows h => ?_, fun businessID rows h => ?_,
    fun _ _ _ => rfl⟩
  · unfold deleteBusinessByID
    rw [List.filter_eq_self.mpr (fun r hr => by simpa using h r hr)]
    simp
  · rcases h with ⟨r, hr, hid⟩
    have hlt : (rows.filter (fun r => r.id ≠ businessID)).length
        < rows.length :=
      List.length_filter_lt_length_iff_exists.mpr ⟨r, hr, by simp [hid]⟩
    unfold deleteBusinessByID
    simpa using hlt

/-- Witness for C8: a one-row store; deleting the absent id 2 resolves
`false` and keeps the row, deleting the present id 1 resolves `true`, and
any update attempt throws. -/
theorem deleteReportsRowCount_updateThrows_witness :
    deleteBusinessByID 2 [⟨1, "row"⟩] = (false, [⟨1, "row"⟩]) ∧
    (deleteBusinessByID 1 [⟨1, "row"⟩]).1 = true ∧
    replaceBusinessByID 1
        ⟨some "tom", some "song", some "3:00", some "art", some "alb", none⟩
        [⟨1, "row"⟩]
      = .error (.referenceError "businessSchema") :=
  ⟨deleteReportsRowCount_updateThrows.1 2 [⟨1, "row"⟩] (by decide),
   deleteReportsRowCount_updateThrows.2.1 1 [⟨1, "row"⟩] ⟨⟨1, "row"⟩,
     by decide, rfl⟩,
   deleteReportsRowCount_updateThrows.2.2 1 _ _⟩

/-- C9 counterexample: `POST /users` runs no uniqueness check — creating the
user "tom" twice from the empty collection leaves two documents whose
`userID` is "tom", so userID is not kept unique by user creation (the bcrypt
collaborator is instantiated with the identity function). -/
theorem insertNewUser_duplicate_userID :
    ((insertNewUser (fun s => s)
        ⟨"tom", "tom jerry", "tomjerry@gmail.com", "pw"⟩
        (insertNewUser (fun s => s)
          ⟨"tom", "tom jerry", "tomjerry@gmail.com", "pw"⟩ [])).filter
      (fun d => d.userID = "tom")).length = 2 := by decide

/-- C9 amended: user creation enforces no uniqueness on `userID`: it appends
unconditionally, so whenever a document with the payload's `userID` already
exists, the store after `insertNewUser` holds at least two documents with
that `userID`. -/
theorem insertNewUser_no_uniqueness_check (hash : String → String)
    (user : NewUserRequest) (db : UserStore)
    (h : ∃ d ∈ db, d.userID = user.userID) :
    2 ≤ ((insertNewUser hash user db).filter
        (fun d => d.userID = user.userID)).length := by
  rcases h with ⟨d, hd, hdid⟩
  have h1 : 0 < (db.filter (fun d => d.userID = user.userID)).length :=
    List.length_pos_of_mem (List.mem_filter.mpr ⟨hd, by simp [hdid]⟩)
  have h2 : 1 ≤ (List.filter (fun d => d.userID = user.userID)
      [(⟨user.userID, user.name, user.email, hash user.password, []⟩ :
        UserDoc)]).length := by simp
  unfold insertNewUser
  rw [List.filter_append, List.length_append]
  exact Nat.add_le_add h1 h2

/-- Witness for the amended C9: inserting "tom" into a store already holding
"tom" yields two matching documents. -/
theorem insertNewUser_no_uniqueness_check_witness :
    2 ≤ ((insertNewUser (fun s => s)
        ⟨"tom", "tom jerry", "tomjerry@gmail.com", "pw"⟩
        [⟨"tom", "tom jerry", "tomjerry@gmail.com", "h", []⟩]).filter
      (fun d => d.userID = "tom")).length :=
  insertNewUser_no_uniqueness_check (fun s => s)
    ⟨"tom", "tom jerry", "tomjerry@gmail.com", "pw"⟩
    [⟨"tom", "tom jerry", "tomjerry@gmail.com", "h", []⟩]
    ⟨⟨"tom", "tom jerry", "tomjerry@gmail.com", "h", []⟩, by decide, rfl⟩

end MusicApi
